import Mathlib

/-!
Verification of the binance-etl order-book recording core.

Shallow embedding of the Python source of the repository:
  - `src/binance_etl/library/book_utils.py` (`OrderBookSynchronizer`)
  - `src/binance_etl/etls/spot_depth_etl.py` (`SpotDepthETL`)
  - `src/binance_etl/etls/spot_trades_etl.py` (`SpotTradesETL`)
  - `src/binance_etl/library/storage.py` (`StorageProvider`, `CsvStorage`)

Python dict payloads become structures; mutable object state becomes
explicit state passing; the REST snapshot fetch (an external effect) is
passed in as an `Option BookSnapshot` argument (the outcome of the one
fetch attempt a call may make); exceptions become explicit outcome
constructors.
-/

/-- A deserialized depth update, as produced by
`SpotDepthETL._deserialize_message` (the dict with keys `timestamp`,
`local_timestamp`, `bids`, `asks`, `first_update_id`, `last_update_id`).
Prices and quantities stay decimal strings, as in the source. -/
structure DepthUpdate where
  timestamp : Int
  local_timestamp : Int
  bids : List (String × String)
  asks : List (String × String)
  first_update_id : Int
  last_update_id : Int
  deriving Repr, DecidableEq

/-- The REST depth snapshot (`{"lastUpdateId": ..., "bids": ..., "asks": ...}`). -/
structure BookSnapshot where
  lastUpdateId : Int
  bids : List (String × String)
  asks : List (String × String)
  deriving Repr, DecidableEq

/-- One persisted depth row, in the column order written by
`SpotDepthETL._save_update`. -/
structure DepthRecord where
  timestamp : Int
  local_timestamp : Int
  side : String
  price : String
  quantity : String
  is_snapshot : Bool
  deriving Repr, DecidableEq

/-- Row order used by `sort_values(by=['timestamp', 'side'])`. -/
def rowLe (a b : DepthRecord) : Bool :=
  decide (a.timestamp < b.timestamp) ||
    (decide (a.timestamp = b.timestamp) && decide (a.side ≤ b.side))

/-- Insert a row into a list sorted by `rowLe`. -/
def insertRow (a : DepthRecord) : List DepthRecord → List DepthRecord
  | [] => [a]
  | b :: l => if rowLe a b then a :: b :: l else b :: insertRow a l

/-- Sorting on `(timestamp, side)`, embedding the `sort_values` call of
`_save_update`. -/
def sortRows : List DepthRecord → List DepthRecord
  | [] => []
  | a :: l => insertRow a (sortRows l)

/-- `SpotDepthETL._save_update`: flatten `bids` then `asks` to per-level rows
and sort them by `(timestamp, side)`. -/
def save_update_rows (timestamp local_timestamp : Int)
    (bids asks : List (String × String)) (snapFlag : Bool) : List DepthRecord :=
  let bidRows := bids.map fun p =>
    ({ timestamp := timestamp, local_timestamp := local_timestamp, side := "bid",
       price := p.1, quantity := p.2, is_snapshot := snapFlag } : DepthRecord)
  let askRows := asks.map fun p =>
    ({ timestamp := timestamp, local_timestamp := local_timestamp, side := "ask",
       price := p.1, quantity := p.2, is_snapshot := snapFlag } : DepthRecord)
  sortRows (bidRows ++ askRows)

/-- Rows of one live update (`_save_update(update)` with the default
`is_initial_snapshot = False`). -/
def save_update_of (u : DepthUpdate) : List DepthRecord :=
  save_update_rows u.timestamp u.local_timestamp u.bids u.asks false

/-- `SpotDepthETL._save_initial_snapshot`: both timestamp fields are the
handler's `local_timestamp - 1`, rows carry `is_snapshot = true`. -/
def save_initial_snapshot_rows (local_timestamp : Int) (snap : BookSnapshot) :
    List DepthRecord :=
  save_update_rows (local_timestamp - 1) (local_timestamp - 1) snap.bids snap.asks true

/-- Mutable state of `OrderBookSynchronizer`. -/
structure SyncState where
  is_synced : Bool
  initial_book_snapshot : Option BookSnapshot
  book_updates : List DepthUpdate
  deriving Repr, DecidableEq

/-- Synchronizer state right after `__init__`. -/
def SyncState.init : SyncState :=
  { is_synced := false, initial_book_snapshot := none, book_updates := [] }

/-- The predicate of the first-update search loop of `try_to_sync_book`:
`update['first_update_id'] <= last_update_id + 1 and
update['last_update_id'] >= last_update_id + 1`. -/
def spanning (L : Int) (x : DepthUpdate) : Bool :=
  decide (x.first_update_id ≤ L + 1) && decide (L + 1 ≤ x.last_update_id)

/-- Body of `try_to_sync_book` from the snapshot on (steps after the fetch):
filter the buffered updates newer than the snapshot, search the first one
spanning `lastUpdateId + 1`, and on success truncate the buffer and set
`is_synced`. -/
def sync_core (s : SyncState) (snap : BookSnapshot) : SyncState :=
  let L := snap.lastUpdateId
  let valid_updates := s.book_updates.filter fun x => decide (L < x.last_update_id)
  if valid_updates.length = 0 then s
  else
    match valid_updates.find? (spanning L) with
    | none => s
    | some fu =>
      { s with
        book_updates :=
          s.book_updates.filter fun x => decide (fu.first_update_id ≤ x.first_update_id),
        is_synced := true }

/-- `OrderBookSynchronizer.try_to_sync_book`. The update is appended to the
buffer first; when no snapshot is held yet the outcome of the REST fetch
attempt is the `fetch` argument (`none` models the request raising). -/
def try_to_sync_book (fetch : Option BookSnapshot) (s : SyncState)
    (update : DepthUpdate) : SyncState :=
  let s1 := { s with book_updates := s.book_updates ++ [update] }
  match s1.initial_book_snapshot with
  | some snap => sync_core s1 snap
  | none =>
    match fetch with
    | none => s1
    | some snap => sync_core { s1 with initial_book_snapshot := some snap } snap

/-- Pipeline state of `SpotDepthETL` (the fields the handler reads/writes). -/
structure EtlState where
  sync : SyncState
  last_book_update : Option DepthUpdate
  local_timestamp : Int
  total_messages : Nat
  deriving Repr, DecidableEq

/-- ETL state right after `__init__`. -/
def EtlState.init : EtlState :=
  { sync := SyncState.init, last_book_update := none, local_timestamp := 0,
    total_messages := 0 }

/-- `SpotDepthETL._is_consistent`: verdict together with the new
`last_book_update`, which is set to the current update unconditionally. -/
def is_consistent_step (last : Option DepthUpdate) (update : DepthUpdate) :
    Bool × Option DepthUpdate :=
  match last with
  | none => (true, some update)
  | some prev => (decide (update.first_update_id = prev.last_update_id + 1), some update)

/-- Outcome of `_handle_message`: normal return with the rows persisted by
the call, or the `raise` on an inconsistent update. -/
inductive HandleOutcome
  | ok (s : EtlState) (rows : List DepthRecord)
  | failed (s : EtlState)
  deriving Repr, DecidableEq

/-- The state carried by either outcome. -/
def outcomeState : HandleOutcome → EtlState
  | .ok s _ => s
  | .failed s => s

/-- The rows persisted by the call (none on the raise). -/
def outcomeRows : HandleOutcome → List DepthRecord
  | .ok _ rows => rows
  | .failed _ => []

/-- Rows written by the sync-transition branch of `_handle_message`: the
initial snapshot, every buffered update in order, and then — the source has
no `return` after the buffered saves — the current message once more. -/
def handle_sync_rows (localT : Int) (sync1 : SyncState) (message : DepthUpdate) :
    List DepthRecord :=
  let snapRows :=
    match sync1.initial_book_snapshot with
    | some snap => save_initial_snapshot_rows localT snap
    | none => []
  let bufRows := (sync1.book_updates.map save_update_of).flatten
  snapRows ++ bufRows ++ save_update_of message

/-- `SpotDepthETL._handle_message`. -/
def handle_message (fetch : Option BookSnapshot) (s : EtlState)
    (message : DepthUpdate) : HandleOutcome :=
  let step := is_consistent_step s.last_book_update message
  let s2 := { s with last_book_update := step.2 }
  if !step.1 then .failed s2
  else if !s2.sync.is_synced then
    let sync1 := try_to_sync_book fetch s2.sync message
    let s3 := { s2 with sync := sync1 }
    if !sync1.is_synced then .ok s3 []
    else .ok s3 (handle_sync_rows s3.local_timestamp sync1 message)
  else .ok s2 (save_update_of message)

/-- The parsed shape of a depth-stream frame (`json.loads` succeeded);
`e = none` models a JSON object without the `"e"` key. -/
structure RawFrame where
  e : Option String
  E : Int
  b : List (String × String)
  a : List (String × String)
  U : Int
  u : Int
  deriving Repr, DecidableEq

/-- An inbound websocket frame: parseable JSON, or text `json.loads` raises on. -/
inductive Frame
  | parsed (f : RawFrame)
  | malformed
  deriving Repr, DecidableEq

/-- `SpotDepthETL._deserialize_message`: returns the mapped update (or `none`)
together with whether a warning was logged (only the exception path logs). -/
def deserialize_message (local_timestamp : Int) (frame : Frame) :
    Option DepthUpdate × Bool :=
  match frame with
  | .malformed => (none, true)
  | .parsed f =>
    if f.e = some "depthUpdate" then
      (some { timestamp := f.E, local_timestamp := local_timestamp,
              bids := f.b, asks := f.a,
              first_update_id := f.U, last_update_id := f.u }, false)
    else (none, false)

/-- Outcome of one `BinanceETL._process_message` call: resulting state, rows
persisted, whether a deserialization warning was logged; `failed` is the
propagated raise of `_handle_message`. -/
inductive ProcessOutcome
  | ok (s : EtlState) (rows : List DepthRecord) (warned : Bool)
  | failed (s : EtlState) (warned : Bool)
  deriving Repr, DecidableEq

/-- `BinanceETL._process_message` specialised by `SpotDepthETL`: stamp
`local_timestamp`, deserialize, dispatch to `_handle_message`, and count the
message in the debug stats only on normal return. -/
def process_message (now : Int) (fetch : Option BookSnapshot) (s : EtlState)
    (frame : Frame) : ProcessOutcome :=
  let s1 := { s with local_timestamp := now }
  match deserialize_message s1.local_timestamp frame with
  | (none, warned) => .ok s1 [] warned
  | (some update, warned) =>
    match handle_message fetch s1 update with
    | .ok s2 rows => .ok { s2 with total_messages := s2.total_messages + 1 } rows warned
    | .failed s2 => .failed s2 warned

/-- Run the depth pipeline over a list of frames, each with its arrival time
and the outcome a REST fetch attempt would have at that moment. Processing
stops at the first raise; the third component records whether it raised. -/
def run_process (s : EtlState) :
    List (Int × Option BookSnapshot × Frame) → EtlState × List DepthRecord × Bool
  | [] => (s, [], false)
  | (now, fetch, f) :: rest =>
    match process_message now fetch s f with
    | .ok s1 rows _ =>
      let r := run_process s1 rest
      (r.1, rows ++ r.2.1, r.2.2)
    | .failed s1 _ => (s1, [], true)

/-- Parsed shape of a trade-stream frame. -/
structure RawTrade where
  e : String
  E : Int
  t : Int
  p : String
  q : String
  m : Bool
  deriving Repr, DecidableEq

/-- One persisted trade row (`SpotTradesETL._save_trade` writes the dict as a
single-row frame). -/
structure TradeRecord where
  timestamp : Int
  local_timestamp : Int
  id : Int
  price : String
  quantity : String
  side : String
  deriving Repr, DecidableEq

/-- `SpotTradesETL._deserialize_trade_message`: only `"trade"` events map to a
record; `side` is `"sell"` when the buyer-is-market-maker flag `m` is set,
`"buy"` otherwise. -/
def deserialize_trade_message (local_timestamp : Int) (f : RawTrade) :
    Option TradeRecord :=
  if f.e = "trade" then
    some { timestamp := f.E, local_timestamp := local_timestamp, id := f.t,
           price := f.p, quantity := f.q,
           side := if f.m then "sell" else "buy" }
  else none

/-- `SpotTradesETL._process_message` restricted to the rows it persists:
deserialize and, when a trade came out, hand exactly one row to the sink. -/
def trades_process_message (now : Int) (f : RawTrade) : List TradeRecord :=
  match deserialize_trade_message now f with
  | none => []
  | some trade => [trade]

/-- A line of the CSV file: the header, or one data row. -/
inductive CsvLine
  | header
  | row (r : DepthRecord)
  deriving Repr, DecidableEq

/-- Whether a CSV line is the header line. -/
def isHeader : CsvLine → Bool
  | .header => true
  | .row _ => false

/-- State of `CsvStorage` for the depth topic: the in-memory buffer
(`depth_updates_df`), the per-topic flush counter, and the lines of the
topic file on disk. -/
structure CsvState where
  batch_size : Nat
  depth_updates_df : List DepthRecord
  depth_updates_batches_saved : Nat
  file : List CsvLine
  deriving Repr, DecidableEq

/-- `CsvStorage` state right after construction: empty buffer, zero batches,
file truncated to empty by `_create_file_with_directories`. -/
def CsvState.init (batch_size : Nat) : CsvState :=
  { batch_size := batch_size, depth_updates_df := [],
    depth_updates_batches_saved := 0, file := [] }

/-- `CsvStorage._save_depth_updates`: the lines appended by `to_csv(...,
mode='a', header=write_header)` where `write_header` is
`depth_updates_batches_saved == 0`. -/
def save_depth_updates (s : CsvState) : List CsvLine :=
  (if s.depth_updates_batches_saved = 0 then [CsvLine.header] else []) ++
    s.depth_updates_df.map CsvLine.row

/-- `StorageProvider.add_depth_updates`: concatenate the new rows and, when
the buffer has reached `batch_size`, flush the whole buffer, bump the
counter and reset the buffer. -/
def add_depth_updates (s : CsvState) (depth_updates : List DepthRecord) : CsvState :=
  let s1 := { s with depth_updates_df := s.depth_updates_df ++ depth_updates }
  if s1.batch_size ≤ s1.depth_updates_df.length then
    { s1 with
      file := s1.file ++ save_depth_updates s1,
      depth_updates_batches_saved := s1.depth_updates_batches_saved + 1,
      depth_updates_df := [] }
  else s1

/-- A sequence of `add_depth_updates` calls from a given state. -/
def run_storage (s : CsvState) (ops : List (List DepthRecord)) : CsvState :=
  ops.foldl add_depth_updates s

/-! ### Helper lemmas -/

theorem find?_eq_some_split {α : Type} (p : α → Bool) :
    ∀ (l : List α) (a : α), l.find? p = some a →
      p a = true ∧ ∃ l1 l2, l = l1 ++ a :: l2 ∧ ∀ x ∈ l1, p x = false := by
  intro l
  induction l with
  | nil => intro a h; cases h
  | cons x xs ih =>
    intro a h
    rw [List.find?_cons] at h
    cases hx : p x with
    | true =>
      rw [hx] at h
      obtain rfl : x = a := by injection h
      exact ⟨hx, [], xs, rfl, by intro y hy; cases hy⟩
    | false =>
      rw [hx] at h
      obtain ⟨hp, l1, l2, heq, hl1⟩ := ih a h
      refine ⟨hp, x :: l1, l2, by rw [heq, List.cons_append], ?_⟩
      intro y hy
      rcases List.mem_cons.mp hy with rfl | hy
      · exact hx
      · exact hl1 y hy

theorem mem_insertRow (a b : DepthRecord) (l : List DepthRecord) :
    a ∈ insertRow b l ↔ a = b ∨ a ∈ l := by
  induction l with
  | nil => simp [insertRow]
  | cons c l ih =>
    unfold insertRow
    cases h : rowLe b c
    · simp only [h, Bool.false_eq_true, if_false, List.mem_cons, ih]
      tauto
    · simp [h]

theorem mem_sortRows (a : DepthRecord) (l : List DepthRecord) :
    a ∈ sortRows l ↔ a ∈ l := by
  induction l with
  | nil => simp [sortRows]
  | cons b l ih => simp [sortRows, mem_insertRow, ih]

theorem mem_save_update_rows {r : DepthRecord} {t lt : Int}
    {bids asks : List (String × String)} {flag : Bool}
    (h : r ∈ save_update_rows t lt bids asks flag) :
    r.timestamp = t ∧ r.local_timestamp = lt ∧ r.is_snapshot = flag := by
  unfold save_update_rows at h
  rw [mem_sortRows] at h
  rcases List.mem_append.mp h with h | h <;>
    · obtain ⟨p, _, rfl⟩ := List.mem_map.mp h
      exact ⟨rfl, rfl, rfl⟩

theorem mem_save_update_of {r : DepthRecord} {u : DepthUpdate}
    (h : r ∈ save_update_of u) :
    r.timestamp = u.timestamp ∧ r.local_timestamp = u.local_timestamp ∧
      r.is_snapshot = false :=
  mem_save_update_rows h

/-- Outcome of `try_to_sync_book` as a function of the first-spanning-update
search, once a snapshot is available (either held from before, or obtained by
this call's fetch). -/
theorem try_to_sync_book_eq (fetch : Option BookSnapshot) (s : SyncState)
    (update : DepthUpdate) (snap : BookSnapshot)
    (hsnap : s.initial_book_snapshot = some snap ∨
             (s.initial_book_snapshot = none ∧ fetch = some snap)) :
    try_to_sync_book fetch s update =
      match ((s.book_updates ++ [update]).filter fun x =>
          decide (snap.lastUpdateId < x.last_update_id)).find?
            (spanning snap.lastUpdateId) with
      | some fu =>
        { is_synced := true, initial_book_snapshot := some snap,
          book_updates := (s.book_updates ++ [update]).filter fun x =>
            decide (fu.first_update_id ≤ x.first_update_id) }
      | none =>
        { is_synced := s.is_synced, initial_book_snapshot := some snap,
          book_updates := s.book_updates ++ [update] } := by
  obtain ⟨sy, sInit, bu⟩ := s
  have core : ∀ s0 : SyncState, s0.is_synced = sy →
      s0.initial_book_snapshot = some snap → s0.book_updates = bu ++ [update] →
      sync_core s0 snap =
        match ((bu ++ [update]).filter fun x =>
            decide (snap.lastUpdateId < x.last_update_id)).find?
              (spanning snap.lastUpdateId) with
        | some fu =>
          { is_synced := true, initial_book_snapshot := some snap,
            book_updates := (bu ++ [update]).filter fun x =>
              decide (fu.first_update_id ≤ x.first_update_id) }
        | none =>
          { is_synced := sy, initial_book_snapshot := some snap,
            book_updates := bu ++ [update] } := by
    rintro ⟨s0y, s0i, s0b⟩ h1 h2 h3
    simp only at h1 h2 h3
    subst h1; subst h2; subst h3
    unfold sync_core
    by_cases hlen :
        ((bu ++ [update]).filter fun x =>
          decide (snap.lastUpdateId < x.last_update_id)).length = 0
    · have hnil := List.length_eq_zero.mp hlen
      simp [hnil]
    · simp only [hlen, if_false]
      cases hfind : ((bu ++ [update]).filter fun x =>
          decide (snap.lastUpdateId < x.last_update_id)).find?
            (spanning snap.lastUpdateId) <;> rfl
  rcases hsnap with h | ⟨h1, h2⟩
  · simp only at h
    subst h
    unfold try_to_sync_book
    exact core _ rfl rfl rfl
  · simp only at h1
    subst h1; subst h2
    unfold try_to_sync_book
    exact core _ rfl rfl rfl

/-- `_handle_message` on an inconsistent update: the raise, after
`last_book_update` has already been moved to the current update. -/
theorem handle_message_inconsistent (fetch : Option BookSnapshot) (s : EtlState)
    (message : DepthUpdate)
    (hc : (is_consistent_step s.last_book_update message).1 = false) :
    handle_message fetch s message =
      .failed { s with last_book_update := (is_consistent_step s.last_book_update message).2 } := by
  simp [handle_message, hc]

/-- `_handle_message` while unsynced when this call does not complete the
sync: nothing is persisted. -/
theorem handle_message_nosync (fetch : Option BookSnapshot) (s : EtlState)
    (message : DepthUpdate)
    (hc : (is_consistent_step s.last_book_update message).1 = true)
    (hns : s.sync.is_synced = false)
    (hs1 : (try_to_sync_book fetch s.sync message).is_synced = false) :
    handle_message fetch s message =
      .ok { s with last_book_update := (is_consistent_step s.last_book_update message).2,
                   sync := try_to_sync_book fetch s.sync message } [] := by
  simp [handle_message, hc, hns, hs1]

/-- `_handle_message` on the call that completes the sync: the snapshot, the
buffered updates, and the fall-through save of the current message. -/
theorem handle_message_transition (fetch : Option BookSnapshot) (s : EtlState)
    (message : DepthUpdate)
    (hc : (is_consistent_step s.last_book_update message).1 = true)
    (hns : s.sync.is_synced = false)
    (hs1 : (try_to_sync_book fetch s.sync message).is_synced = true) :
    handle_message fetch s message =
      .ok { s with last_book_update := (is_consistent_step s.last_book_update message).2,
                   sync := try_to_sync_book fetch s.sync message }
        (handle_sync_rows s.local_timestamp (try_to_sync_book fetch s.sync message)
          message) := by
  simp [handle_message, hc, hns, hs1]

/-- `_handle_message` once synced: the current update is persisted once. -/
theorem handle_message_synced (fetch : Option BookSnapshot) (s : EtlState)
    (message : DepthUpdate)
    (hc : (is_consistent_step s.last_book_update message).1 = true)
    (hsy : s.sync.is_synced = true) :
    handle_message fetch s message =
      .ok { s with last_book_update := (is_consistent_step s.last_book_update message).2 }
        (save_update_of message) := by
  simp [handle_message, hc, hsy]

/-! ### Concrete inputs used by counterexamples and witnesses -/

/-- A depth frame spanning the snapshot below (`U=5`, `u=7`). -/
def frameA : RawFrame :=
  { e := some "depthUpdate", E := 1000, b := [("9", "2")], a := [], U := 5, u := 7 }

/-- The update `frameA` deserializes to at arrival time 2000. -/
def updateA : DepthUpdate :=
  { timestamp := 1000, local_timestamp := 2000, bids := [("9", "2")], asks := [],
    first_update_id := 5, last_update_id := 7 }

/-- The single depth row of `updateA`. -/
def rowA : DepthRecord :=
  { timestamp := 1000, local_timestamp := 2000, side := "bid", price := "9",
    quantity := "2", is_snapshot := false }

/-- A snapshot with `lastUpdateId = 6`, spanned by `updateA`. -/
def snap6 : BookSnapshot := { lastUpdateId := 6, bids := [("10", "1")], asks := [] }

/-- The rows persisted by one `_process_message` call (empty on a raise). -/
def processRows : ProcessOutcome → List DepthRecord
  | .ok _ rows _ => rows
  | .failed _ _ => []

/-- Whether `_handle_message` raised. -/
def isFailedOutcome : HandleOutcome → Bool
  | .ok _ _ => false
  | .failed _ => true

/-! ### Claims -/

/-- Claim C1 (code bug). The spec requires every buffered update to appear
exactly once in the output of the sync-transition call, the handler
returning without persisting the current update again. In the source,
`_handle_message` has no `return` after the buffered saves and falls
through to `self._save_update(message)`: on a run where the first message
itself completes the sync, the row of that message appears twice in the
persisted output. -/
theorem claim_C1_code_bug_double_persist :
    save_update_of updateA = [rowA]
    ∧ (processRows (process_message 2000 (some snap6) EtlState.init
        (Frame.parsed frameA))).count rowA = 2 := by
  constructor
  · rfl
  · rfl

/-- A depth frame that does not chain from `frameA` (`U=12` instead of 8). -/
def frameGap : RawFrame :=
  { e := some "depthUpdate", E := 20, b := [("8", "1")], a := [], U := 12, u := 15 }

/-- Two-frame run: `frameA` buffered while the fetch fails, then the
non-chaining `frameGap` — still unsynced throughout. -/
def gapTrace : List (Int × Option BookSnapshot × Frame) :=
  [(100, none, Frame.parsed frameA), (200, none, Frame.parsed frameGap)]

/-- Claim C2, counterexample. On `gapTrace` the book is never synced, the
second update is inconsistent with the first, and the pipeline nevertheless
raises: the claim that an inconsistent update aborts only when `is_synced`
is true — and that processing continues while unsynced — is false on the
code. -/
theorem claim_C2_counterexample :
    (run_process EtlState.init gapTrace).2.2 = true
    ∧ (run_process EtlState.init gapTrace).1.sync.is_synced = false
    ∧ (is_consistent_step
        ((run_process EtlState.init [(100, none, Frame.parsed frameA)]).1.last_book_update)
        { timestamp := 20, local_timestamp := 200, bids := [("8", "1")], asks := [],
          first_update_id := 12, last_update_id := 15 }).1 = false := by
  refine ⟨rfl, rfl, rfl⟩

/-- Claim C2, amended: `_handle_message` raises exactly when the consistency
monitor reports an inconsistent update, regardless of `is_synced` — the
source checks `_is_consistent` before, and independently of, the sync
branch. -/
theorem claim_C2_amended (fetch : Option BookSnapshot) (s : EtlState)
    (message : DepthUpdate) :
    isFailedOutcome (handle_message fetch s message) =
      !(is_consistent_step s.last_book_update message).1 := by
  cases hc : (is_consistent_step s.last_book_update message).1
  · rw [handle_message_inconsistent fetch s message hc]
    rfl
  · cases hsy : s.sync.is_synced
    · cases hs1 : (try_to_sync_book fetch s.sync message).is_synced
      · rw [handle_message_nosync fetch s message hc hsy hs1]
        rfl
      · rw [handle_message_transition fetch s message hc hsy hs1]
        rfl
    · rw [handle_message_synced fetch s message hc hsy]
      rfl

/-- Claim C6: a frame that parses but whose event type is not
`"depthUpdate"` is discarded silently — no rows, no warning, and no state
change beyond the arrival timestamp (in particular the debug message count
and the synchronizer state are untouched). -/
theorem claim_C6_nondepth_silent (now : Int) (fetch : Option BookSnapshot)
    (s : EtlState) (f : RawFrame) (h : ¬ f.e = some "depthUpdate") :
    process_message now fetch s (Frame.parsed f) =
      .ok { s with local_timestamp := now } [] false := by
  simp [process_message, deserialize_message, h]

/-- A subscription acknowledgement frame. -/
def frameAck : RawFrame :=
  { e := some "subscribeResponse", E := 0, b := [], a := [], U := 0, u := 0 }

/-- Witness for C6 at the subscription-ack frame. -/
theorem claim_C6_witness :
    ¬ frameAck.e = some "depthUpdate"
    ∧ process_message 5 none EtlState.init (Frame.parsed frameAck) =
        .ok { EtlState.init with local_timestamp := 5 } [] false :=
  ⟨by decide, claim_C6_nondepth_silent 5 none EtlState.init frameAck (by decide)⟩

/-- Claim C7: a `"trade"` event persists exactly one row whose side is
`"sell"` when the buyer-is-market-maker flag `m` is true and `"buy"` when it
is false; any other event type persists nothing. -/
theorem claim_C7_trade_side (now : Int) (f : RawTrade) :
    trades_process_message now f =
      if f.e = "trade" then
        [{ timestamp := f.E, local_timestamp := now, id := f.t, price := f.p,
           quantity := f.q, side := if f.m then "sell" else "buy" }]
      else [] := by
  unfold trades_process_message deserialize_trade_message
  by_cases h : f.e = "trade" <;> simp [h]

/-- Claim C9: the consistency monitor stores the current update as
`last_book_update` before returning, whatever the verdict — also on the
handler's raise path — and the next update's verdict compares its
`first_update_id` against this update's `last_update_id + 1`. -/
theorem claim_C9_monitor_last_update (last : Option DepthUpdate)
    (u next : DepthUpdate) (fetch : Option BookSnapshot) (s : EtlState) :
    (is_consistent_step last u).2 = some u
    ∧ (is_consistent_step (is_consistent_step last u).2 next).1 =
        decide (next.first_update_id = u.last_update_id + 1)
    ∧ (outcomeState (handle_message fetch s u)).last_book_update = some u := by
  have h2 : (is_consistent_step s.last_book_update u).2 = some u := by
    cases s.last_book_update <;> rfl
  refine ⟨by cases last <;> rfl, by cases last <;> rfl, ?_⟩
  cases hc : (is_consistent_step s.last_book_update u).1
  · rw [handle_message_inconsistent fetch s u hc]
    simp [outcomeState, h2]
  · cases hsy : s.sync.is_synced
    · cases hs1 : (try_to_sync_book fetch s.sync u).is_synced
      · rw [handle_message_nosync fetch s u hc hsy hs1]
        simp [outcomeState, h2]
      · rw [handle_message_transition fetch s u hc hsy hs1]
        simp [outcomeState, h2]
    · rw [handle_message_synced fetch s u hc hsy]
      simp [outcomeState, h2]

/-- Claim C3: with a snapshot of id `L` available (held, or fetched by this
call), `try_to_sync_book` sets `is_synced` exactly when the filtered list
`valid = [u : u.last_update_id > L]` of the appended buffer contains an
update spanning `L + 1`; the chosen first update is the first such element
of `valid` (the `find?`), and when none exists the call leaves `is_synced`
false with only the buffer appended. -/
theorem claim_C3_sync_decision (fetch : Option BookSnapshot) (s : SyncState)
    (update : DepthUpdate) (snap : BookSnapshot)
    (hsnap : s.initial_book_snapshot = some snap ∨
             (s.initial_book_snapshot = none ∧ fetch = some snap))
    (hns : s.is_synced = false) :
    ((try_to_sync_book fetch s update).is_synced = true ↔
      ∃ x ∈ (s.book_updates ++ [update]).filter
          (fun x => decide (snap.lastUpdateId < x.last_update_id)),
        spanning snap.lastUpdateId x = true)
    ∧ (∀ fu, ((s.book_updates ++ [update]).filter
          (fun x => decide (snap.lastUpdateId < x.last_update_id))).find?
            (spanning snap.lastUpdateId) = some fu →
        spanning snap.lastUpdateId fu = true
        ∧ (∃ v1 v2, (s.book_updates ++ [update]).filter
              (fun x => decide (snap.lastUpdateId < x.last_update_id)) = v1 ++ fu :: v2
            ∧ ∀ x ∈ v1, spanning snap.lastUpdateId x = false)
        ∧ (try_to_sync_book fetch s update).is_synced = true
        ∧ (try_to_sync_book fetch s update).book_updates =
            (s.book_updates ++ [update]).filter
              (fun x => decide (fu.first_update_id ≤ x.first_update_id)))
    ∧ (((s.book_updates ++ [update]).filter
          (fun x => decide (snap.lastUpdateId < x.last_update_id))).find?
            (spanning snap.lastUpdateId) = none →
        (try_to_sync_book fetch s update).is_synced = false
        ∧ (try_to_sync_book fetch s update).book_updates =
            s.book_updates ++ [update]) := by
  have heq := try_to_sync_book_eq fetch s update snap hsnap
  refine ⟨?_, ?_, ?_⟩
  · constructor
    · intro hs
      cases hfind : ((s.book_updates ++ [update]).filter
          (fun x => decide (snap.lastUpdateId < x.last_update_id))).find?
            (spanning snap.lastUpdateId) with
      | none =>
        rw [hfind] at heq
        rw [heq] at hs
        simp only at hs
        rw [hns] at hs
        cases hs
      | some fu =>
        have hmem := List.mem_of_find?_eq_some hfind
        have hp := (find?_eq_some_split _ _ _ hfind).1
        exact ⟨fu, hmem, hp⟩
    · rintro ⟨x, hx, hpx⟩
      cases hfind : ((s.book_updates ++ [update]).filter
          (fun x => decide (snap.lastUpdateId < x.last_update_id))).find?
            (spanning snap.lastUpdateId) with
      | none =>
        have := List.find?_eq_none.mp hfind x hx
        rw [hpx] at this
        cases this rfl
      | some fu =>
        rw [hfind] at heq
        rw [heq]
  · intro fu hfind
    rw [hfind] at heq
    obtain ⟨hp, v1, v2, hv, hv1⟩ := find?_eq_some_split _ _ _ hfind
    exact ⟨hp, ⟨v1, v2, hv, hv1⟩, by rw [heq], by rw [heq]⟩
  · intro hfind
    rw [hfind] at heq
    rw [heq]
    exact ⟨hns, rfl⟩

/-- Witness for C3: the fresh synchronizer, fetch returning `snap6`, and
`updateA` spanning `lastUpdateId + 1 = 7`. -/
theorem claim_C3_witness :
    (SyncState.init.initial_book_snapshot = some snap6 ∨
      (SyncState.init.initial_book_snapshot = none ∧
        (some snap6 : Option BookSnapshot) = some snap6))
    ∧ SyncState.init.is_synced = false
    ∧ (((try_to_sync_book (some snap6) SyncState.init updateA).is_synced = true ↔
          ∃ x ∈ (SyncState.init.book_updates ++ [updateA]).filter
              (fun x => decide (snap6.lastUpdateId < x.last_update_id)),
            spanning snap6.lastUpdateId x = true)
        ∧ (∀ fu, ((SyncState.init.book_updates ++ [updateA]).filter
              (fun x => decide (snap6.lastUpdateId < x.last_update_id))).find?
                (spanning snap6.lastUpdateId) = some fu →
            spanning snap6.lastUpdateId fu = true
            ∧ (∃ v1 v2, (SyncState.init.book_updates ++ [updateA]).filter
                  (fun x => decide (snap6.lastUpdateId < x.last_update_id)) =
                    v1 ++ fu :: v2
                ∧ ∀ x ∈ v1, spanning snap6.lastUpdateId x = false)
            ∧ (try_to_sync_book (some snap6) SyncState.init updateA).is_synced = true
            ∧ (try_to_sync_book (some snap6) SyncState.init updateA).book_updates =
                (SyncState.init.book_updates ++ [updateA]).filter
                  (fun x => decide (fu.first_update_id ≤ x.first_update_id)))
        ∧ (((SyncState.init.book_updates ++ [updateA]).filter
              (fun x => decide (snap6.lastUpdateId < x.last_update_id))).find?
                (spanning snap6.lastUpdateId) = none →
            (try_to_sync_book (some snap6) SyncState.init updateA).is_synced = false
            ∧ (try_to_sync_book (some snap6) SyncState.init updateA).book_updates =
                SyncState.init.book_updates ++ [updateA])) :=
  ⟨Or.inr ⟨rfl, rfl⟩, rfl,
    claim_C3_sync_decision (some snap6) SyncState.init updateA snap6
      (Or.inr ⟨rfl, rfl⟩) rfl⟩

/-- Claim C5: when `try_to_sync_book` succeeds choosing `fu`, and the
appended buffer is in arrival order (strictly increasing
`first_update_id`, as the consistency monitor enforces for chained
streams), the buffer afterwards is exactly the contiguous suffix of the
appended buffer starting at `fu` inclusive, and `is_synced` is set. -/
theorem claim_C5_truncation_suffix (fetch : Option BookSnapshot) (s : SyncState)
    (update : DepthUpdate) (snap : BookSnapshot) (fu : DepthUpdate)
    (hsnap : s.initial_book_snapshot = some snap ∨
             (s.initial_book_snapshot = none ∧ fetch = some snap))
    (hsorted : (s.book_updates ++ [update]).Pairwise
        fun a b => a.first_update_id < b.first_update_id)
    (hfind : ((s.book_updates ++ [update]).filter
        (fun x => decide (snap.lastUpdateId < x.last_update_id))).find?
          (spanning snap.lastUpdateId) = some fu) :
    (try_to_sync_book fetch s update).is_synced = true
    ∧ ∃ l1 l2, s.book_updates ++ [update] = l1 ++ fu :: l2
        ∧ (try_to_sync_book fetch s update).book_updates = fu :: l2 := by
  have heq := try_to_sync_book_eq fetch s update snap hsnap
  rw [hfind] at heq
  have hmemf : fu ∈ (s.book_updates ++ [update]).filter
      (fun x => decide (snap.lastUpdateId < x.last_update_id)) :=
    List.mem_of_find?_eq_some hfind
  have hmem : fu ∈ s.book_updates ++ [update] := List.mem_of_mem_filter hmemf
  obtain ⟨l1, l2, hdec⟩ := List.append_of_mem hmem
  rw [hdec] at hsorted
  obtain ⟨hp1, hp2, hrel⟩ := List.pairwise_append.mp hsorted
  have hl1 : ∀ x ∈ l1, x.first_update_id < fu.first_update_id := fun x hx =>
    hrel x hx fu (List.mem_cons_self fu l2)
  have hl2 : ∀ y ∈ l2, fu.first_update_id < y.first_update_id :=
    (List.pairwise_cons.mp hp2).1
  refine ⟨by rw [heq], l1, l2, hdec, ?_⟩
  rw [heq]
  simp only [hdec, List.filter_append, List.filter_cons]
  have h1 : l1.filter (fun x => decide (fu.first_update_id ≤ x.first_update_id)) = [] := by
    rw [List.filter_eq_nil_iff]
    intro x hx
    simp only [decide_eq_true_eq, not_le]
    exact hl1 x hx
  have h2 : l2.filter (fun x => decide (fu.first_update_id ≤ x.first_update_id)) = l2 := by
    rw [List.filter_eq_self]
    intro y hy
    simp only [decide_eq_true_eq]
    exact le_of_lt (hl2 y hy)
  rw [h1, h2]
  simp

/-- An update chaining right after `updateA` (`U=8`, `u=12`). -/
def updateB : DepthUpdate :=
  { timestamp := 20, local_timestamp := 200, bids := [("8", "1")], asks := [],
    first_update_id := 8, last_update_id := 12 }

/-- A synchronizer holding `snap6` with `updateA` already buffered. -/
def syncStateA : SyncState :=
  { is_synced := false, initial_book_snapshot := some snap6,
    book_updates := [updateA] }

/-- Witness for C5: buffer `[updateA, updateB]`, chosen update `updateA`,
kept suffix `[updateA, updateB]`. -/
theorem claim_C5_witness :
    (syncStateA.initial_book_snapshot = some snap6 ∨
      (syncStateA.initial_book_snapshot = none ∧
        (none : Option BookSnapshot) = some snap6))
    ∧ (syncStateA.book_updates ++ [updateB]).Pairwise
        (fun a b => a.first_update_id < b.first_update_id)
    ∧ ((syncStateA.book_updates ++ [updateB]).filter
        (fun x => decide (snap6.lastUpdateId < x.last_update_id))).find?
          (spanning snap6.lastUpdateId) = some updateA
    ∧ ((try_to_sync_book none syncStateA updateB).is_synced = true
        ∧ ∃ l1 l2, syncStateA.book_updates ++ [updateB] = l1 ++ updateA :: l2
            ∧ (try_to_sync_book none syncStateA updateB).book_updates =
                updateA :: l2) :=
  ⟨Or.inl rfl, by decide, by decide,
    claim_C5_truncation_suffix none syncStateA updateB snap6 updateA
      (Or.inl rfl) (by decide) (by decide)⟩

/-- The frame of `updateB`, chaining after `frameA`. -/
def frameB : RawFrame :=
  { e := some "depthUpdate", E := 20, b := [("8", "1")], a := [], U := 8, u := 12 }

/-- Two-frame run: `frameA` at time 100 while the snapshot fetch fails, then
`frameB` at time 200 with a fetch returning the (stale) `snap6`; the sync
completes choosing `updateA`, buffered since time 100. -/
def staleTrace : List (Int × Option BookSnapshot × Frame) :=
  [(100, none, Frame.parsed frameA), (200, some snap6, Frame.parsed frameB)]

/-- Claim C4, counterexample. On `staleTrace` the snapshot rows are stamped
`200 - 1 = 199`, but the first persisted row with `is_snapshot = false`
comes from the buffered `frameA`, which kept its arrival
`local_timestamp = 100`: it is not strictly greater than the snapshot
rows' timestamp, refuting the claimed ordering. -/
theorem claim_C4_counterexample :
    ((run_process EtlState.init staleTrace).2.1.find? fun r => !r.is_snapshot) =
      some { timestamp := 1000, local_timestamp := 100, side := "bid",
             price := "9", quantity := "2", is_snapshot := false }
    ∧ ({ timestamp := 199, local_timestamp := 199, side := "bid", price := "10",
         quantity := "1", is_snapshot := true } : DepthRecord) ∈
        (run_process EtlState.init staleTrace).2.1
    ∧ ¬ ((199 : Int) < 100) := by
  refine ⟨rfl, by decide, by decide⟩

/-- Claim C4, amended: on the sync-transition call at handler time `T`, the
snapshot rows are persisted with both timestamp fields equal to `T - 1` and
`is_snapshot = true`; every row of the sync-triggering update (persisted
with its arrival `local_timestamp = T`) is strictly later than every
snapshot row, but rows of buffered updates kept from earlier arrivals keep
their own earlier `local_timestamp`, which need not exceed `T - 1`. -/
theorem claim_C4_amended (fetch : Option BookSnapshot) (s : EtlState)
    (message : DepthUpdate) (s2 : EtlState) (rows : List DepthRecord)
    (hns : s.sync.is_synced = false)
    (h : handle_message fetch s message = .ok s2 rows)
    (_hsync : s2.sync.is_synced = true)
    (hloc : message.local_timestamp = s.local_timestamp) :
    (∀ r ∈ rows, r.is_snapshot = true →
        r.timestamp = s.local_timestamp - 1
        ∧ r.local_timestamp = s.local_timestamp - 1)
    ∧ (∀ r ∈ rows, r.is_snapshot = true → ∀ r2 ∈ save_update_of message,
        r.local_timestamp < r2.local_timestamp) := by
  cases hc : (is_consistent_step s.last_book_update message).1 with
  | false =>
    rw [handle_message_inconsistent fetch s message hc] at h
    exact HandleOutcome.noConfusion h
  | true =>
    cases hs1 : (try_to_sync_book fetch s.sync message).is_synced with
    | false =>
      rw [handle_message_nosync fetch s message hc hns hs1] at h
      injection h with h1 h2
      rw [← h2]
      simp
    | true =>
      rw [handle_message_transition fetch s message hc hns hs1] at h
      injection h with h1 h2
      have key : ∀ r ∈ rows, r.is_snapshot = true →
          r.timestamp = s.local_timestamp - 1
          ∧ r.local_timestamp = s.local_timestamp - 1 := by
        intro r hr hrs
        rw [← h2] at hr
        unfold handle_sync_rows at hr
        rcases List.mem_append.mp hr with hr | hr
        · rcases List.mem_append.mp hr with hr | hr
          · cases hso : (try_to_sync_book fetch s.sync message).initial_book_snapshot with
            | none =>
              rw [hso] at hr
              cases hr
            | some snap =>
              rw [hso] at hr
              unfold save_initial_snapshot_rows at hr
              exact ⟨(mem_save_update_rows hr).1, (mem_save_update_rows hr).2.1⟩
          · obtain ⟨lr, hlr, hrin⟩ := List.mem_flatten.mp hr
            obtain ⟨u2, _, rfl⟩ := List.mem_map.mp hlr
            have := (mem_save_update_of hrin).2.2
            rw [hrs] at this
            cases this
        · have := (mem_save_update_of hr).2.2
          rw [hrs] at this
          cases this
      refine ⟨key, ?_⟩
      intro r hr hrs r2 hr2
      have hra := (key r hr hrs).2
      have hrb := (mem_save_update_of hr2).2.1
      rw [hra, hrb, hloc]
      omega

/-- ETL state at handler time 2000, fresh otherwise. -/
def etlStateT : EtlState :=
  { sync := SyncState.init, last_book_update := none, local_timestamp := 2000,
    total_messages := 0 }

/-- State after the sync-transition call of `claim_C4_witness`. -/
def etlStateT2 : EtlState :=
  { sync := { is_synced := true, initial_book_snapshot := some snap6,
              book_updates := [updateA] },
    last_book_update := some updateA, local_timestamp := 2000,
    total_messages := 0 }

/-- Rows persisted by the sync-transition call of `claim_C4_witness`. -/
def transRows : List DepthRecord :=
  [{ timestamp := 1999, local_timestamp := 1999, side := "bid", price := "10",
     quantity := "1", is_snapshot := true }, rowA, rowA]

/-- Witness for the amended C4 at a concrete sync-transition call. -/
theorem claim_C4_witness :
    etlStateT.sync.is_synced = false
    ∧ handle_message (some snap6) etlStateT updateA = .ok etlStateT2 transRows
    ∧ etlStateT2.sync.is_synced = true
    ∧ updateA.local_timestamp = etlStateT.local_timestamp
    ∧ ((∀ r ∈ transRows, r.is_snapshot = true →
          r.timestamp = etlStateT.local_timestamp - 1
          ∧ r.local_timestamp = etlStateT.local_timestamp - 1)
        ∧ (∀ r ∈ transRows, r.is_snapshot = true →
            ∀ r2 ∈ save_update_of updateA,
              r.local_timestamp < r2.local_timestamp)) :=
  ⟨rfl, by decide, rfl, rfl,
    claim_C4_amended (some snap6) etlStateT updateA etlStateT2 transRows rfl
      (by decide) rfl rfl⟩

/-- Header invariant of the depth topic file: no flush yet and an empty
file, or at least one flush and a single leading header. -/
def headerInv (s : CsvState) : Prop :=
  (s.depth_updates_batches_saved = 0 ∧ s.file = [])
  ∨ (s.depth_updates_batches_saved ≠ 0
      ∧ ∃ rest, s.file = CsvLine.header :: rest ∧ ∀ l ∈ rest, isHeader l = false)

theorem add_depth_updates_inv (s : CsvState) (df : List DepthRecord)
    (h : headerInv s) : headerInv (add_depth_updates s df) := by
  unfold add_depth_updates
  by_cases hb : s.batch_size ≤ (s.depth_updates_df ++ df).length
  · simp only [hb, if_true]
    rcases h with ⟨h0, hf⟩ | ⟨h0, rest, hf, hrest⟩
    · right
      refine ⟨by simp [h0], ?_⟩
      refine ⟨((s.depth_updates_df ++ df).map CsvLine.row), ?_, ?_⟩
      · simp [save_depth_updates, h0, hf]
      · intro l hl
        obtain ⟨r, _, rfl⟩ := List.mem_map.mp hl
        rfl
    · right
      refine ⟨by simp, ?_⟩
      refine ⟨rest ++ (s.depth_updates_df ++ df).map CsvLine.row, ?_, ?_⟩
      · simp [save_depth_updates, h0, hf]
      · intro l hl
        rcases List.mem_append.mp hl with hl | hl
        · exact hrest l hl
        · obtain ⟨r, _, rfl⟩ := List.mem_map.mp hl
          rfl
  · simp only [hb, if_false]
    rcases h with ⟨h0, hf⟩ | ⟨h0, rest, hf, hrest⟩
    · exact Or.inl ⟨h0, hf⟩
    · exact Or.inr ⟨h0, rest, hf, hrest⟩

theorem run_storage_inv (ops : List (List DepthRecord)) :
    ∀ s : CsvState, headerInv s → headerInv (run_storage s ops) := by
  induction ops with
  | nil => intro s h; exact h
  | cons df rest ih =>
    intro s h
    exact ih (add_depth_updates s df) (add_depth_updates_inv s df h)

/-- Claim C8: over any sequence of adds from a fresh CSV sink, the file
contains a header exactly when at least one flush happened, and then exactly
one header, as its first line; the `batches_saved` counter drives the
decision (`= 0` means write the header). -/
theorem claim_C8_header_once (bs : Nat) (ops : List (List DepthRecord)) :
    (run_storage (CsvState.init bs) ops).file.countP isHeader =
      (if (run_storage (CsvState.init bs) ops).depth_updates_batches_saved = 0
       then 0 else 1)
    ∧ (run_storage (CsvState.init bs) ops).file.head? =
      (if (run_storage (CsvState.init bs) ops).depth_updates_batches_saved = 0
       then none else some CsvLine.header) := by
  have hinv := run_storage_inv ops (CsvState.init bs) (Or.inl ⟨rfl, rfl⟩)
  rcases hinv with ⟨h0, hf⟩ | ⟨h0, rest, hf, hrest⟩
  · rw [h0, hf]
    simp
  · rw [hf]
    simp only [h0, if_neg h0, List.countP_cons, List.head?_cons]
    have hz : rest.countP isHeader = 0 := by
      rw [List.countP_eq_zero]
      intro a ha
      rw [hrest a ha]
      exact Bool.false_ne_true
    rw [hz]
    exact ⟨rfl, rfl⟩

/-- Claim C10: with `batch_size ≥ 1`, after any `add_depth_updates` call the
in-memory buffer holds strictly fewer than `batch_size` rows; when the
concatenated buffer reaches the threshold the whole of it is flushed in a
single write (possibly more than `batch_size` rows), the counter is bumped
and the buffer reset, and otherwise nothing is flushed. -/
theorem claim_C10_batch_flush (s : CsvState) (df : List DepthRecord)
    (h : 1 ≤ s.batch_size) :
    (add_depth_updates s df).depth_updates_df.length < s.batch_size
    ∧ (if s.batch_size ≤ (s.depth_updates_df ++ df).length then
        (add_depth_updates s df).file =
            s.file ++ save_depth_updates
              { s with depth_updates_df := s.depth_updates_df ++ df }
          ∧ (add_depth_updates s df).depth_updates_df = []
          ∧ (add_depth_updates s df).depth_updates_batches_saved =
              s.depth_updates_batches_saved + 1
      else add_depth_updates s df =
            { s with depth_updates_df := s.depth_updates_df ++ df }) := by
  unfold add_depth_updates
  by_cases hb : s.batch_size ≤ (s.depth_updates_df ++ df).length
  · simp only [hb, if_true]
    refine ⟨by simpa using h, ?_, ?_, ?_⟩ <;> trivial
  · simp only [hb, if_false]
    refine ⟨by simpa using Nat.lt_of_not_le hb, ?_⟩
    trivial

/-- Witness for C10 at `batch_size = 1` and a one-row add. -/
theorem claim_C10_witness :
    1 ≤ (CsvState.init 1).batch_size
    ∧ ((add_depth_updates (CsvState.init 1) [rowA]).depth_updates_df.length <
          (CsvState.init 1).batch_size
        ∧ (if (CsvState.init 1).batch_size ≤
              ((CsvState.init 1).depth_updates_df ++ [rowA]).length then
            (add_depth_updates (CsvState.init 1) [rowA]).file =
                (CsvState.init 1).file ++ save_depth_updates
                  { CsvState.init 1 with
                    depth_updates_df := (CsvState.init 1).depth_updates_df ++ [rowA] }
              ∧ (add_depth_updates (CsvState.init 1) [rowA]).depth_updates_df = []
              ∧ (add_depth_updates (CsvState.init 1) [rowA]).depth_updates_batches_saved =
                  (CsvState.init 1).depth_updates_batches_saved + 1
          else add_depth_updates (CsvState.init 1) [rowA] =
                { CsvState.init 1 with
                  depth_updates_df := (CsvState.init 1).depth_updates_df ++ [rowA] })) :=
  ⟨by decide, claim_C10_batch_flush (CsvState.init 1) [rowA] (by decide)⟩
